import Mathlib

/-!
Verification of the zpp::maybe library (src/maybe.h): a shallow embedding of
the error-category mechanism, the type-erased `error` descriptor, and the
`maybe<T>` value-or-error container, together with theorems settling the
specification's claims about them.
-/

namespace zpp

/--
Shallow embedding of `zpp::error_category` (src/maybe.h). A category exposes a
display name and a translation of integer error codes to messages. The C++
class is abstract with pure virtual `name()`/`message(int)`; every concrete
category is determined by those two observations, so the embedding is a
structure holding them. Machine `int` codes are modelled as `Int`
(the claims involve no arithmetic, so overflow never matters), and
`std::string_view` results as `String`.
-/
structure error_category where
  name : String
  message : Int → String

/--
Model of a C++ reference/pointer to a process-lifetime `error_category`
instance (`const error_category *` / `const error_category &` in src/maybe.h):
an address, for the identity comparisons the spec makes ("categories are
compared by address"), together with the immutable pointee. Categories are
never mutated after construction, so carrying the pointee with the address is
faithful.
-/
structure category_ptr where
  addr : Nat
  deref : error_category

/--
Shallow embedding of `zpp::make_error_category<ErrorCode>(name, messages)`
(src/maybe.h lines 49-80). The produced category returns the stored name, and
its `message(code)` forwards to the user translator applied to
`ErrorCode{code}` — the conversion of the raw integer into the enum type,
modelled by `ofInt`.
-/
def make_error_category {E : Type} (ofInt : Int → E)
    (name : String) (messages : E → String) : error_category :=
  { name := name, message := fun code => messages (ofInt code) }

/--
Shallow embedding of `zpp::error_detail::error` (src/maybe.h lines 126-213):
a non-owning category pointer `m_category` paired with the raw integer code
`m_code`. Default construction is deleted in the source, and the embedding
likewise offers only the two constructor paths below.
-/
structure error where
  m_category : category_ptr
  m_code : Int

/-- The `zpp::error::no_error` sentinel: the empty message. -/
def error.no_error : String := ""

/--
Construction path A, `error(ErrorCode error_code)` (src/maybe.h lines
143-148): the category is obtained from `zpp::category<ErrorCode>()`, which
calls the user's ADL function `category(ErrorCode{})` on a default-constructed
sentinel. That function returns a reference to one function-local static, so
for a fixed enum type the lookup yields one fixed `category_ptr` — passed here
as `lookup`, independent of the particular value `c`. The stored code is the
underlying-type cast of `c`, modelled by `toInt`.
-/
def error.ofCode {E : Type} (lookup : category_ptr) (toInt : E → Int)
    (c : E) : error :=
  { m_category := lookup, m_code := toInt c }

/--
Construction path B, `error(ErrorCode error_code, const error_category &
category)` (src/maybe.h lines 154-159): the category is the explicitly
supplied reference, and the code is the underlying-type cast of the enum
value.
-/
def error.ofCodeCat {E : Type} (toInt : E → Int) (c : E)
    (cat : category_ptr) : error :=
  { m_category := cat, m_code := toInt c }

/-- `error::category()` (src/maybe.h lines 164-167): `return *m_category;`. -/
def error.category (e : error) : error_category :=
  e.m_category.deref

/-- `error::code()` (src/maybe.h lines 172-175): `return m_code;`. -/
def error.code (e : error) : Int :=
  e.m_code

/--
`error::message()` (src/maybe.h lines 180-183):
`return m_category->message(m_code);`.
-/
def error.message (e : error) : String :=
  e.m_category.deref.message e.m_code

/--
`error::operator bool()` (src/maybe.h lines 188-191):
`return message().empty();` — success is derived from the message, there is
no stored flag.
-/
def error.toBool (e : error) : Bool :=
  e.message.isEmpty

/--
Shallow embedding of `zpp::maybe<Type>` (src/maybe.h lines 254-321), which
derives privately from `std::variant<Type, error>`: a closed tagged union
whose alternative 0 is the value and alternative 1 is the error.
-/
inductive maybe (T : Type) where
  | alt0 (t : T)
  | alt1 (e : error)

/-- The `std::variant::index()` of the underlying variant: 0 for the value
alternative, 1 for the error alternative. -/
def maybe.index {T : Type} : maybe T → Nat
  | .alt0 _ => 0
  | .alt1 _ => 1

/--
`maybe::operator bool()` (src/maybe.h lines 311-314):
`return (0 == this->index());` — a pure tag check.
-/
def maybe.toBool {T : Type} (m : maybe T) : Bool :=
  m.index == 0

/--
`maybe::error()` (src/maybe.h lines 284-287):
`return *std::get_if<error_type>(this);` — returns the stored error by value
(the return type is plain `auto`, hence a copy). Dereferencing `get_if` on
the wrong alternative is undefined behaviour in the source; the embedding
returns `none` there.
-/
def maybe.error {T : Type} : maybe T → Option zpp.error
  | .alt0 _ => none
  | .alt1 e => some e

/--
`maybe::value()` (src/maybe.h lines 295-305, both the `&` and the `&&`
overload return the stored value; ownership transfer by the move overload is
not observable in a value embedding): `return *std::get_if<type>(this);`.
Wrong-alternative access is undefined behaviour in the source; the embedding
returns `none` there.
-/
def maybe.value {T : Type} : maybe T → Option T
  | .alt0 t => some t
  | .alt1 _ => none

/--
Construction of a `maybe<T>` from a success value, via the inherited
`std::variant` converting constructor selecting alternative 0
(src/maybe.h line 278).
-/
def maybe.ofValue (T : Type) (t : T) : maybe T :=
  .alt0 t

/--
Construction of a `maybe<T>` from an error-code enum value, via the inherited
`std::variant` converting constructor: the enum value converts to `error`
through construction path A, selecting alternative 1 (src/maybe.h line 278).
-/
def maybe.ofCode (T : Type) {E : Type} (toInt : E → Int)
    (lookup : category_ptr) (c : E) : maybe T :=
  .alt1 (zpp.error.ofCode lookup toInt c)

/--
State-passing translation of the const observer `error::code()` for frame
reasoning: the body reads `m_code` and performs no assignment, so the object
component of the result is the received object.
-/
def error.code_call (e : error) : Int × error :=
  (e.m_code, e)

/-- State-passing translation of the const observer `error::category()`:
reads `m_category`, assigns nothing. -/
def error.category_call (e : error) : error_category × error :=
  (e.m_category.deref, e)

/-- State-passing translation of the const observer `error::message()`:
reads `m_category` and `m_code`, assigns nothing. -/
def error.message_call (e : error) : String × error :=
  (e.m_category.deref.message e.m_code, e)

/-- State-passing translation of the const conversion `error::operator bool()`:
computes from the message, assigns nothing. -/
def error.bool_call (e : error) : Bool × error :=
  ((e.m_category.deref.message e.m_code).isEmpty, e)

/-- State-passing translation of the const conversion `maybe::operator bool()`:
reads the variant index, assigns nothing. -/
def maybe.bool_call {T : Type} (m : maybe T) : Bool × maybe T :=
  (m.index == 0, m)

/-- State-passing translation of the const observer `maybe::error()`: reads
the error alternative and returns it by value, assigns nothing. -/
def maybe.error_call {T : Type} (m : maybe T) :
    Option zpp.error × maybe T :=
  (m.error, m)

/-- State-passing translation of the non-move observer `maybe::value() &`:
reads the value alternative, assigns nothing. -/
def maybe.value_call {T : Type} (m : maybe T) : Option T × maybe T :=
  (m.value, m)

/--
The caller-side sequence `auto e = m.error(); e = e2;` — extract the error
from a `maybe`, then overwrite the extracted copy with an arbitrary error.
The first component is the `maybe` after the sequence, the second the
caller's local copy after the overwrite.
-/
def error_copy_then_mutate {T : Type} (m : maybe T) (e2 : error) :
    maybe T × Option error :=
  let r := maybe.error_call m
  (r.2, r.1.map fun _ => e2)

/--
Model of the example enum `my_error` from the repository README and the
doc comment in src/maybe.h: `enum class my_error : int` with enumerators
`success = 0`, `something_bad = 1`, `something_really_bad = 2`. An enum class
with underlying type `int` ranges over every `int` value (e.g.
`my_error{99}` is a valid value), so the model wraps an arbitrary `Int`.
-/
structure my_error where
  val : Int
deriving DecidableEq

/-- The `my_error::success` enumerator (value 0). -/
def my_error.success : my_error := ⟨0⟩

/-- The `my_error::something_bad` enumerator (value 1). -/
def my_error.something_bad : my_error := ⟨1⟩

/-- The `my_error::something_really_bad` enumerator (value 2). -/
def my_error.something_really_bad : my_error := ⟨2⟩

/--
The translator lambda from the README example: a switch mapping `success` to
`zpp::error::no_error`, `something_bad` and `something_really_bad` to their
texts, and any other code to the fallback text.
-/
def my_error_messages (code : my_error) : String :=
  if code = my_error.success then error.no_error
  else if code = my_error.something_bad then "Something bad happened."
  else if code = my_error.something_really_bad then
    "Something really bad happened."
  else "Unknown error occurred."

/--
The category built by the README's `category(my_error)` function:
`make_error_category<my_error>("my_category", translator)`.
-/
def my_error_category : error_category :=
  make_error_category my_error.mk "my_category" my_error_messages

/--
The pointer to the function-local static category instance returned by the
README's `category(my_error)` lookup function; its address is some fixed
location in static storage, modelled here as 0.
-/
def my_error_category_lookup : category_ptr :=
  { addr := 0, deref := my_error_category }

/-- C1: for every type `T`, `maybe<T>`'s boolean conversion is true iff the
value alternative (variant index 0) is active; and a `maybe<T>` constructed
from any error-code enum value — the success value included — converts to
false, holds exactly the path-A error for that value, and its
`error().code()` is the underlying integer of the original enum value. -/
theorem maybe_bool_is_tag_check_and_code_roundtrip {T E : Type}
    (toInt : E → Int) (lookup : category_ptr) (m : maybe T) (c : E) :
    (m.toBool = true ↔ m.index = 0) ∧
    (maybe.ofCode T toInt lookup c).toBool = false ∧
    (maybe.ofCode T toInt lookup c).error =
      some (error.ofCode lookup toInt c) ∧
    (maybe.ofCode T toInt lookup c).error.map error.code =
      some (toInt c) := by
  refine ⟨?_, rfl, rfl, rfl⟩
  cases m <;> simp [maybe.toBool, maybe.index]

/-- C2: for every error value, the boolean conversion (`is_success`) is true
iff `message()` is the empty string; and that truth value is computed from
the category's translation of the stored code — success is derived, not a
separately stored flag. -/
theorem error_bool_iff_message_empty (e : error) :
    (e.toBool = true ↔ e.message = "") ∧
    e.toBool = (e.m_category.deref.message e.m_code).isEmpty := by
  refine ⟨?_, rfl⟩
  simp [error.toBool, error.message, String.isEmpty_iff]

/-- C3: when the looked-up category translates the success value's code to
the empty string and a non-success value's code to a non-empty string,
path-A construction gives `error(success)` with `is_success() = true` and an
empty message, and `error(c)` for the non-success value `c` with
`is_success() = false` and a non-empty message. -/
theorem error_success_iff_translator_success {E : Type} (toInt : E → Int)
    (lookup : category_ptr) (succ c : E)
    (hsucc : lookup.deref.message (toInt succ) = "")
    (hne : c ≠ succ)
    (hfail : lookup.deref.message (toInt c) ≠ "") :
    ((error.ofCode lookup toInt succ).toBool = true ∧
      (error.ofCode lookup toInt succ).message = "") ∧
    ((error.ofCode lookup toInt c).toBool = false ∧
      (error.ofCode lookup toInt c).message ≠ "") := by
  refine ⟨⟨?_, hsucc⟩, ⟨?_, hfail⟩⟩
  · simp [error.toBool, error.ofCode, error.message, String.isEmpty_iff,
      hsucc]
  · exact Bool.eq_false_iff.mpr
      (fun h => hfail ((String.isEmpty_iff _).mp h))

/-- Witness for C3 at the README scenario: success value `my_error::success`,
non-success value `my_error::something_bad`. -/
theorem error_success_iff_translator_success_witness :
    ((error.ofCode my_error_category_lookup my_error.val
        my_error.success).toBool = true ∧
      (error.ofCode my_error_category_lookup my_error.val
        my_error.success).message = "") ∧
    ((error.ofCode my_error_category_lookup my_error.val
        my_error.something_bad).toBool = false ∧
      (error.ofCode my_error_category_lookup my_error.val
        my_error.something_bad).message ≠ "") :=
  error_success_iff_translator_success my_error.val my_error_category_lookup
    my_error.success my_error.something_bad (by decide) (by decide)
    (by decide)

/-- C4: in the README scenario enum `{success=0, bad=1, really_bad=2}`,
`error(something_bad).message()` is "Something bad happened.", and for the
integer 99 — outside the declared enumerators — both
`error(my_error{99}).message()` and `category.message(99)` are the non-empty
fallback text "Unknown error occurred.", distinct from each legitimate
code's message. -/
theorem my_error_scenario_messages :
    (error.ofCode my_error_category_lookup my_error.val
      my_error.something_bad).message = "Something bad happened." ∧
    (error.ofCode my_error_category_lookup my_error.val
      (my_error.mk 99)).message = "Unknown error occurred." ∧
    my_error_category.message 99 = "Unknown error occurred." ∧
    my_error_category.message 99 ≠ "" ∧
    my_error_category.message 99 ≠ my_error_category.message 0 ∧
    my_error_category.message 99 ≠ my_error_category.message 1 ∧
    my_error_category.message 99 ≠ my_error_category.message 2 := by
  refine ⟨rfl, rfl, rfl, ?_, ?_, ?_, ?_⟩ <;> decide

/-- C5: for every error value `e`, `e.message()` equals
`e.category().message(e.code())` — the message operation delegates exactly to
the bound category's translation of the stored integer code. -/
theorem error_message_delegates_to_category (e : error) :
    e.message = e.category.message e.code :=
  rfl

/-- C6: for every type `T` and value `t : T`, a `maybe<T>` constructed from
`t` converts to true and its `value()` operation returns exactly `t`. -/
theorem maybe_value_roundtrip {T : Type} (t : T) :
    (maybe.ofValue T t).toBool = true ∧
    (maybe.ofValue T t).value = some t :=
  ⟨rfl, rfl⟩

/-- C7: for an error-code enum type with its category-lookup function
(one function-local static instance, hence one fixed `category_ptr`), any two
errors constructed via path A from values of the enum — equal or different,
constructed repeatedly — bind the same category instance, compared by
address. -/
theorem path_a_same_category_instance {E : Type} (toInt : E → Int)
    (lookup : category_ptr) (c1 c2 : E) :
    (error.ofCode lookup toInt c1).m_category.addr =
      (error.ofCode lookup toInt c2).m_category.addr ∧
    (error.ofCode lookup toInt c1).m_category =
      (error.ofCode lookup toInt c2).m_category :=
  ⟨rfl, rfl⟩

/-- C8: for every name string `n`, conversion `ofInt` and translator
`msgs`, the category produced by `make_error_category` has `name()` equal to
exactly `n`; `name()` reads the immutable stored `m_name`, so repeated calls
return the same string every time. -/
theorem make_error_category_name_stable {E : Type} (ofInt : Int → E)
    (n : String) (msgs : E → String) :
    (make_error_category ofInt n msgs).name = n :=
  rfl

/-- C9: for every enum value `c` and category reference `cat`, an error
constructed via path B as `error(c, cat)` has `category()` referring to
exactly the supplied category (same address, same pointee — the explicit
category overrides the lookup-resolved one) and `code()` equal to the
underlying integer of `c`. -/
theorem path_b_explicit_category_and_code {E : Type} (toInt : E → Int)
    (c : E) (cat : category_ptr) :
    (error.ofCodeCat toInt c cat).m_category = cat ∧
    (error.ofCodeCat toInt c cat).category = cat.deref ∧
    (error.ofCodeCat toInt c cat).code = toInt c :=
  ⟨rfl, rfl, rfl⟩

/-- C10: every observer leaves its object unchanged — the state-passing
translations of `code()`, `category()`, `message()` and the boolean
conversion on an error, and of the boolean conversion, `error()` and the
non-move `value()` on a `maybe<T>`, all return the received object intact;
and `maybe::error()` returns a copy, so overwriting the returned error with
any other error leaves the `maybe` (and the error it stores) unaffected. -/
theorem observers_leave_object_unchanged {T : Type} (e : error) (m : maybe T)
    (e2 : error) :
    (error.code_call e).2 = e ∧
    (error.category_call e).2 = e ∧
    (error.message_call e).2 = e ∧
    (error.bool_call e).2 = e ∧
    (maybe.bool_call m).2 = m ∧
    (maybe.error_call m).2 = m ∧
    (maybe.value_call m).2 = m ∧
    (error_copy_then_mutate m e2).1 = m ∧
    (error_copy_then_mutate m e2).1.error = m.error :=
  ⟨rfl, rfl, rfl, rfl, rfl, rfl, rfl, rfl, rfl⟩

end zpp
